import Mathlib

/-!
Verification of the FRED simulation demo driver (`src/main.cpp`) and of the
Simulation Lifecycle Driver contract it illustrates.

Part 1 shallowly embeds `main.cpp`: the global state written by `main`
(`Global::Simulation_Day`, `Global::Simulation_Days`), the sequence of
assignments `main` performs, and the demo loop `for (int day = 0; day < 5;
day++) { Global::Simulation_Day = day; ... }`.

Part 2 models the Lifecycle Driver (initialize / setup / run_day / finish
with its OrderingViolation / SequenceViolation / RangeViolation error
taxonomy).  That driver's code is not part of the repository sources
(`main.cpp` only demonstrates the globals), so it is modelled from the
specification text.
-/

namespace Fred

/-- The mutable global simulation scalars of `Global.h` that `main.cpp`
writes: `Global::Simulation_Day` and `Global::Simulation_Days`.
C++ `int` is modelled as `Int` (no value here approaches overflow). -/
structure GlobalState where
  simulation_day : Int
  simulation_days : Int
deriving DecidableEq

/-- Modelled from the spec: `Global::DAYS_PER_WEEK`, a constant the
repository's `Global.h` (absent from the sources) fixes at the conventional
value 7; `main.cpp` only reads it. -/
def DAYS_PER_WEEK : Int := 7

/-- Modelled from the spec: `Global::ADULT_AGE`, a constant age threshold
from the absent `Global.h` (spec default 18); `main.cpp` only reads it. -/
def ADULT_AGE : Int := 18

/-- The global fields that exist to be written. -/
inductive GField where
  | simulationDay
  | simulationDays
  | daysPerWeek
  | adultAge
deriving DecidableEq

/-- State after `main`'s initialisation assignments
`Global::Simulation_Day = 0; Global::Simulation_Days = 10;`
(`main.cpp` lines 11-12). -/
def afterInit : GlobalState := { simulation_day := 0, simulation_days := 10 }

/-- The day values the demo loop iterates over:
`for (int day = 0; day < 5; day++)` (`main.cpp` line 21). -/
def loopDays : List Int := (List.range 5).map Int.ofNat

/-- One iteration body of the demo loop: the assignment
`Global::Simulation_Day = day;` followed by the per-day work (the
"Simulated day ... completed." print).  Returns the state after the
assignment together with the value `Global::Simulation_Day` holds while
the per-day work runs (`main.cpp` lines 22-23). -/
def loopBody (g : GlobalState) (day : Int) : GlobalState × Int :=
  let gNext := { g with simulation_day := day }
  (gNext, gNext.simulation_day)

/-- The state transformation of one loop iteration. -/
def loopStep (g : GlobalState) (day : Int) : GlobalState :=
  (loopBody g day).1

/-- Global state just before the loop iteration for day `d` begins. -/
def stateBeforeIter (d : Nat) : GlobalState :=
  (loopDays.take d).foldl loopStep afterInit

/-- Global state after the loop iteration for day `d` has completed. -/
def stateAfterIter (d : Nat) : GlobalState :=
  (loopDays.take (d + 1)).foldl loopStep afterInit

/-- The value `Global::Simulation_Day` holds when the per-day work of the
iteration for day `d` runs (after that iteration's assignment). -/
def observedDay (d : Nat) : Int :=
  (loopBody (stateBeforeIter d) ((d : Nat) : Int)).2

/-- The global state when `main` returns. -/
def mainFinalState : GlobalState := loopDays.foldl loopStep afterInit

/-- Every global state `main` passes through once its initialisation
assignments have completed: the state after initialisation, then the state
after each of the five loop iterations. -/
def mainStatesAfterInit : List GlobalState :=
  afterInit :: (List.range 5).map stateAfterIter

/-- The sequence of writes `main` performs to the global fields, in program
order: the two initialisation assignments, then one `Simulation_Day`
assignment per loop iteration. -/
def mainWrites : List (GField × Int) :=
  [(GField.simulationDay, 0), (GField.simulationDays, 10)]
    ++ loopDays.map (fun d => (GField.simulationDay, d))

/-- Everything `main` does that is visible outside it: its write sequence,
the final global state, and its exit code. -/
structure MainResult where
  writes : List (GField × Int)
  final : GlobalState
  exitCode : Int
deriving DecidableEq

/-- The whole of `main`, as a function of its command-line arguments
`argc`/`argv` (which its body never reads): performs the initialisation
writes, runs the demo loop, and returns 0 (`main.cpp` lines 4-29). -/
def mainRun (_argc : Int) (_argv : List String) : MainResult :=
  { writes := mainWrites
    final := mainFinalState
    exitCode := 0 }

/-- Modelled from the spec: the error taxonomy of the Lifecycle Driver
(section 7), whose implementation is absent from the repository sources. -/
inductive DriverError where
  | OrderingViolation
  | SequenceViolation
  | RangeViolation
deriving DecidableEq

/-- Modelled from the spec: the driver's life-cycle states
`Uninitialized → Initialized → Running → Finished` (section 4.2). -/
inductive Phase where
  | Uninitialized
  | Initialized
  | Running
  | Finished
deriving DecidableEq

/-- Modelled from the spec: the driver together with the registry fields it
drives (`current_day`, `total_days`); the driver implementation is absent
from the repository sources. -/
structure DriverState where
  phase : Phase
  current_day : Int
  total_days : Int
deriving DecidableEq

/-- The driver state at process start, before any phase has run. -/
def driverStart : DriverState :=
  { phase := Phase.Uninitialized, current_day := 0, total_days := 0 }

/-- Modelled from the spec: `initialize(configuration)` — absent from the
repository sources — derives the run's `total_days` and resets
`current_day` to 0; it fails with OrderingViolation if called twice
(section 4.2). -/
def initDriver (s : DriverState) (totalDays : Int) : Except DriverError DriverState :=
  if s.phase = Phase.Uninitialized then
    Except.ok { phase := Phase.Initialized, current_day := 0, total_days := totalDays }
  else
    Except.error DriverError.OrderingViolation

/-- Modelled from the spec: `setup()` — absent from the repository
sources — moves the driver from Initialized to Running, delegating any
one-time preparation to external collaborators; it fails with
OrderingViolation unless `initialize` has completed (section 4.2). -/
def setup (s : DriverState) : Except DriverError DriverState :=
  if s.phase = Phase.Initialized then
    Except.ok { s with phase := Phase.Running }
  else
    Except.error DriverError.OrderingViolation

/-- Modelled from the spec: `run_day(day)` — absent from the repository
sources — requires the driver to be Running and `day = current_day`
(SequenceViolation otherwise), may be called at most `total_days` times
(RangeViolation afterwards), and on success delegates the per-day work and
then advances `current_day` by exactly 1 (sections 4.2 and 7).  The state
returned alongside an error is the unchanged input state. -/
def run_day (s : DriverState) (day : Int) : Except DriverError Unit × DriverState :=
  if s.phase ≠ Phase.Running then
    (Except.error DriverError.OrderingViolation, s)
  else if day ≠ s.current_day then
    (Except.error DriverError.SequenceViolation, s)
  else if s.total_days ≤ s.current_day then
    (Except.error DriverError.RangeViolation, s)
  else
    (Except.ok (), { s with current_day := s.current_day + 1 })

/-- Modelled from the spec: `finish()` — absent from the repository
sources — marks a Running driver Finished, is a no-op once Finished (the
spec's recommended choice), and otherwise fails with OrderingViolation
(section 4.2). -/
def finish (s : DriverState) : Except DriverError DriverState :=
  match s.phase with
  | Phase.Running => Except.ok { s with phase := Phase.Finished }
  | Phase.Finished => Except.ok s
  | _ => Except.error DriverError.OrderingViolation

/-- Run `run_day` for each day of a list in order, stopping at the first
error. -/
def runDays (s : DriverState) : List Int → Except DriverError DriverState
  | [] => Except.ok s
  | d :: ds =>
    match run_day s d with
    | (Except.ok _, sNext) => runDays sNext ds
    | (Except.error e, _) => Except.error e

/-- The consecutive day values `start, start+1, ..., start+k-1`. -/
def dayRange (start : Int) (k : Nat) : List Int :=
  (List.range k).map (fun i => start + Int.ofNat i)

/-- The driver state after `initialize → setup → run_day(0 .. totalDays-1)`,
just before `finish`, stopping at the first error. -/
def ranAllDays (totalDays : Int) : Except DriverError DriverState :=
  match initDriver driverStart totalDays with
  | Except.error e => Except.error e
  | Except.ok s1 =>
    match setup s1 with
    | Except.error e => Except.error e
    | Except.ok s2 => runDays s2 (dayRange 0 totalDays.toNat)

/-- The caller's full life cycle for a configured day count `totalDays`:
`initialize → setup → run_day(0 .. totalDays-1) → finish` (section 6). -/
def lifecycle (totalDays : Int) : Except DriverError DriverState :=
  match ranAllDays totalDays with
  | Except.error e => Except.error e
  | Except.ok s3 => finish s3

/-! ## Helper lemmas about the spec-modelled driver -/

lemma dayRange_succ (d : Int) (k : Nat) :
    dayRange d (k + 1) = d :: dayRange (d + 1) k := by
  unfold dayRange
  rw [List.range_succ_eq_map]
  simp only [List.map_cons, List.map_map]
  congr 1
  · simp [Int.ofNat_zero]
  · refine List.map_congr_left ?_
    intro i _
    simp only [Function.comp_apply, Int.ofNat_eq_natCast]
    push_cast
    ring

lemma runDays_dayRange (k : Nat) :
    ∀ d t : Int, d + (k : Int) ≤ t →
      runDays ⟨Phase.Running, d, t⟩ (dayRange d k)
        = Except.ok ⟨Phase.Running, d + (k : Int), t⟩ := by
  induction k with
  | zero =>
    intro d t _
    simp [runDays, dayRange]
  | succ k ih =>
    intro d t h
    rw [dayRange_succ]
    have hlt : ¬ t ≤ d := by push_cast at h; omega
    have hstep : run_day ⟨Phase.Running, d, t⟩ d
        = (Except.ok (), ⟨Phase.Running, d + 1, t⟩) := by
      simp [run_day, hlt]
    rw [runDays, hstep]
    have h2 : (d + 1) + (k : Int) ≤ t := by push_cast at h ⊢; omega
    show runDays ⟨Phase.Running, d + 1, t⟩ (dayRange (d + 1) k)
        = Except.ok ⟨Phase.Running, d + ((k : Nat) + 1 : Nat), t⟩
    rw [ih (d + 1) t h2]
    refine congrArg Except.ok ?_
    refine congrArg (fun x => DriverState.mk Phase.Running x t) ?_
    push_cast
    ring

lemma ranAllDays_ok (N : Int) (h : 0 < N) :
    ranAllDays N = Except.ok ⟨Phase.Running, N, N⟩ := by
  have hinit : initDriver driverStart N
      = Except.ok ⟨Phase.Initialized, 0, N⟩ := by
    simp [initDriver, driverStart]
  have hsetup : setup ⟨Phase.Initialized, 0, N⟩
      = Except.ok ⟨Phase.Running, 0, N⟩ := by
    simp [setup]
  have hcast : ((N.toNat : Int)) = N := Int.toNat_of_nonneg (le_of_lt h)
  have hrun := runDays_dayRange N.toNat 0 N (by rw [hcast]; omega)
  rw [hcast] at hrun
  simp only [zero_add] at hrun
  simp only [ranAllDays, hinit, hsetup]
  exact hrun

/-! ## Claim theorems -/

/-- Claim C1, counterexample to the claim as stated: this program sets
Simulation_Days to 10, yet Simulation_Day is not 10 when `main` returns
(the demo loop leaves it at 4). -/
theorem claim_C1_cex :
    mainFinalState.simulation_days = 10 ∧ mainFinalState.simulation_day ≠ 10 := by
  decide

/-- Claim C1 (amended): for every configured total day count N > 0, the
full lifecycle `initialize → setup → run_day(0..N-1) → finish` of the
spec-modelled driver ends with current_day = N; for this program, with
Simulation_Days set to 10, Simulation_Day equals 4 (not 10) when `main`
returns, because the demo loop only runs days 0..4 and assigns rather than
increments. -/
theorem claim_C1 (N : Int) (h : 0 < N) :
    lifecycle N = Except.ok ⟨Phase.Finished, N, N⟩ ∧
    mainFinalState.simulation_day = 4 := by
  constructor
  · unfold lifecycle
    rw [ranAllDays_ok N h]
    rfl
  · decide

/-- Claim C1 witness at N = 10. -/
theorem claim_C1_witness :
    (0 : Int) < 10 ∧
    (lifecycle 10 = Except.ok ⟨Phase.Finished, 10, 10⟩ ∧
      mainFinalState.simulation_day = 4) :=
  ⟨by decide, claim_C1 10 (by decide)⟩

/-- Claim C2, counterexample to the claim as stated: after the loop step
for day 0 completes, Simulation_Day is 0, not 0 + 1. -/
theorem claim_C2_cex :
    ¬ ((stateAfterIter 0).simulation_day = Int.ofNat 0 + 1) := by
  decide

/-- Claim C2 (amended): each loop step for day d first sets Simulation_Day
to d and then performs the per-day work, so after the step for day d
completes, Simulation_Day equals d (not d + 1). -/
theorem claim_C2 : ∀ d : Nat, d < 5 → (stateAfterIter d).simulation_day = Int.ofNat d := by
  decide

/-- Claim C2 witness at d = 3. -/
theorem claim_C2_witness :
    3 < 5 ∧ (stateAfterIter 3).simulation_day = Int.ofNat 3 :=
  ⟨by decide, claim_C2 3 (by decide)⟩

/-- Claim C3, counterexample to the claim as stated: Simulation_Days is 10,
but the demo loop performs only 5 steps and never reaches day 9. -/
theorem claim_C3_cex :
    mainFinalState.simulation_days = 10 ∧
    ¬ ((9 : Int) ∈ loopDays) ∧ loopDays.length ≠ 10 := by
  decide

/-- Claim C3 (amended): the entry point performs exactly 5 loop steps, one
for every day in 0..4, in strictly ascending day order — fewer than
Simulation_Days = 10. -/
theorem claim_C3 :
    loopDays = [0, 1, 2, 3, 4] ∧
    List.Chain' (fun a b => a < b) loopDays ∧
    loopDays.length = 5 := by
  refine ⟨by decide, ?_, by decide⟩
  show List.Chain' (fun a b => a < b) [0, 1, 2, 3, 4]
  norm_num [List.chain'_cons]

/-- Claim C4: for every call of the spec-modelled `run_day(day)` on a
running driver where day differs from current_day, the call fails with
SequenceViolation and leaves the state (hence current_day) unchanged. -/
theorem claim_C4 (s : DriverState) (day : Int)
    (hp : s.phase = Phase.Running) (hd : day ≠ s.current_day) :
    run_day s day = (Except.error DriverError.SequenceViolation, s) := by
  simp [run_day, hp, hd]

/-- Claim C4 witness: a running driver at day 2 rejects run_day(5). -/
theorem claim_C4_witness :
    (DriverState.mk Phase.Running 2 10).phase = Phase.Running ∧
    (5 : Int) ≠ (DriverState.mk Phase.Running 2 10).current_day ∧
    run_day (DriverState.mk Phase.Running 2 10) 5
      = (Except.error DriverError.SequenceViolation, DriverState.mk Phase.Running 2 10) :=
  ⟨rfl, by decide, claim_C4 (DriverState.mk Phase.Running 2 10) 5 rfl (by decide)⟩

/-- Claim C5: the spec-modelled `run_day` may be called `total_days` times
(the N calls for days 0..N-1 all succeed, reaching current_day = N); the
(N+1)-th call then fails with RangeViolation and leaves the state
unchanged. -/
theorem claim_C5 (N : Int) (h : 0 < N) :
    ranAllDays N = Except.ok ⟨Phase.Running, N, N⟩ ∧
    run_day ⟨Phase.Running, N, N⟩ N
      = (Except.error DriverError.RangeViolation, ⟨Phase.Running, N, N⟩) := by
  refine ⟨ranAllDays_ok N h, ?_⟩
  simp [run_day]

/-- Claim C5 witness at N = 1: run_day(0) succeeds, the second call fails
with RangeViolation. -/
theorem claim_C5_witness :
    (0 : Int) < 1 ∧
    (ranAllDays 1 = Except.ok ⟨Phase.Running, 1, 1⟩ ∧
      run_day ⟨Phase.Running, 1, 1⟩ 1
        = (Except.error DriverError.RangeViolation, ⟨Phase.Running, 1, 1⟩)) :=
  ⟨by decide, claim_C5 1 (by decide)⟩

/-- Claim C6: at every point of `main`'s execution after the initialisation
assignments (Simulation_Day = 0, Simulation_Days = 10) have completed, the
state satisfies 0 ≤ Simulation_Day ≤ Simulation_Days. -/
theorem claim_C6 :
    ∀ g ∈ mainStatesAfterInit,
      0 ≤ g.simulation_day ∧ g.simulation_day ≤ g.simulation_days := by
  decide

/-- Claim C6 witness at the state right after initialisation. -/
theorem claim_C6_witness :
    afterInit ∈ mainStatesAfterInit ∧
    (0 ≤ afterInit.simulation_day ∧
      afterInit.simulation_day ≤ afterInit.simulation_days) :=
  ⟨by decide, claim_C6 afterInit (by decide)⟩

/-- Claim C7: across `main`'s run, Simulation_Day is monotonically
non-decreasing from initialisation to the end of the run: the successive
values it holds are pairwise ≤. -/
theorem claim_C7 :
    List.Chain' (fun a b => a ≤ b)
      (mainStatesAfterInit.map GlobalState.simulation_day) := by
  show List.Chain' (fun a b => a ≤ b) [0, 0, 1, 2, 3, 4]
  norm_num [List.chain'_cons]

/-- Claim C8: across the entire run of `main`, Simulation_Days is written
exactly once (by initialisation), DAYS_PER_WEEK and ADULT_AGE are never
written, and every write after the two initialisation writes targets only
Simulation_Day. -/
theorem claim_C8 :
    mainWrites.countP (fun w => w.1 = GField.simulationDays) = 1 ∧
    mainWrites.countP (fun w => w.1 = GField.daysPerWeek) = 0 ∧
    mainWrites.countP (fun w => w.1 = GField.adultAge) = 0 ∧
    (mainWrites.drop 2).all (fun w => w.1 = GField.simulationDay) = true := by
  decide

/-- Claim C9: when the per-day work of the loop iteration for day d runs
(after that iteration's assignment), Simulation_Day equals the loop
variable d. -/
theorem claim_C9 : ∀ d : Nat, d < 5 → observedDay d = Int.ofNat d := by
  decide

/-- Claim C9 witness at d = 2. -/
theorem claim_C9_witness : 2 < 5 ∧ observedDay 2 = Int.ofNat 2 :=
  ⟨by decide, claim_C9 2 (by decide)⟩

/-- Claim C10: `main` is deterministic and independent of its command-line
arguments: any two invocations perform the identical write sequence, leave
the same final state (Simulation_Day = 4, Simulation_Days = 10), and
return exit code 0. -/
theorem claim_C10 :
    ∀ (argc1 argc2 : Int) (argv1 argv2 : List String),
      mainRun argc1 argv1 = mainRun argc2 argv2 ∧
      (mainRun argc1 argv1).final.simulation_day = 4 ∧
      (mainRun argc1 argv1).final.simulation_days = 10 ∧
      (mainRun argc1 argv1).exitCode = 0 := by
  intro argc1 argc2 argv1 argv2
  refine ⟨rfl, ?_, ?_, ?_⟩
  · show mainFinalState.simulation_day = 4
    decide
  · show mainFinalState.simulation_days = 10
    decide
  · rfl

end Fred
